import Mathlib

/-!
# Verification of the "dont-go-broke" financial engine

A shallow embedding of the financial core of the dont-go-broke app
(ledger store, metrics calculators, notification store, suggestion
generators, achievement tracker) together with theorems settling the
frozen claims about it.

Conventions of the embedding:
* JavaScript numbers are modelled as rationals (`ℚ`); none of the claims
  hinges on binary floating point.
* `Date` values are modelled by their millisecond timestamp (`ℤ`).  A
  value that went through `JSON.stringify`/`JSON.parse` is no longer a
  `Date` but an ISO-8601 string; the sum type `JsDate` keeps track of
  this distinction, which matters for the persistence round trip.
* `Math.floor`/`Math.ceil`/`Math.round` are modelled by `Rat.floor`,
  `Rat.ceil` and `jsRound` (round half towards positive infinity, which
  is what `Math.round` does).
* Store actions are modelled as pure state-transition functions; the
  `Math.random`-based id generator and the wall clock are passed in as
  parameters.  Presentation-only fields that no claim touches
  (`description`, icon names, `actionData` payloads, bill frequencies)
  are not modelled.
-/

namespace DontGoBroke

/-- JS `Math.round`: round half towards +∞, `Math.round x = ⌊x + 0.5⌋`. -/
def jsRound (q : ℚ) : ℤ := ⌊q + 1/2⌋

/-- Milliseconds in a day (`24 * 60 * 60 * 1000`). -/
def msPerDay : ℤ := 24 * 60 * 60 * 1000

/-- Milliseconds in the 30-day averaging window (`30 * 24 * 60 * 60 * 1000`). -/
def thirtyDaysMs : ℤ := 30 * msPerDay

/-- `FuelLevel` enum from `src/types/enums.ts`. -/
inductive FuelLevel where
  | empty
  | critical
  | low
  | medium
  | high
  | full
deriving DecidableEq, Repr

/-- Position of a level in the order `empty < critical < low < medium < high < full`
used by the spec and by `GamificationEngine.createFuelLevelChangeNotification`. -/
def levelIndex : FuelLevel → ℕ
  | .empty => 0
  | .critical => 1
  | .low => 2
  | .medium => 3
  | .high => 4
  | .full => 5

/-- `source` field of an expense (`'manual' | 'parsed' | 'recurring'`). -/
inductive ExpenseSource where
  | manual
  | parsed
  | recurring
deriving DecidableEq, Repr

/-- A JS date-like value.  `date ms` is a live `Date` object with
timestamp `ms`; `str s` is what is left of a `Date` after a
`JSON.stringify`/`JSON.parse` round trip (its ISO-8601 rendering). -/
inductive JsDate where
  | date (ms : ℤ)
  | str (s : String)
deriving DecidableEq, Repr

/-- Stand-in for `Date.prototype.toJSON` (the exact ISO-8601 text is
irrelevant; all that matters is that it is a string, and that
`ToNumber` of an ISO-8601 string is `NaN`). -/
def isoString (ms : ℤ) : String := "ISO:" ++ toString ms

/-- The JS comparison `d >= t` where `t` is a live `Date` with timestamp
`tms`.  When `d` is a live `Date` this compares timestamps.  When `d` is
a string (a deserialized date), the abstract relational comparison
converts both sides with `ToNumber`; `ToNumber` of an ISO-8601 string is
`NaN`, and every comparison against `NaN` is `false`. -/
def JsDate.ge (d : JsDate) (tms : ℤ) : Bool :=
  match d with
  | .date ms => tms ≤ ms
  | .str _ => false

/-- `SalaryData` (`src/types/core.ts`); the calculators only read
`amount`, so the bookkeeping fields (`frequency`, `lastUpdated`,
`nextSalaryDate`, `recurringBillsDeducted`) are not modelled. -/
structure SalaryData where
  amount : ℚ
deriving DecidableEq, Repr

/-- `Expense` record as created by `addExpense` in `src/stores/appStore.ts`. -/
structure Expense where
  id : String
  amount : ℚ
  category : String
  date : JsDate
  source : ExpenseSource
  createdAt : JsDate
  updatedAt : JsDate
deriving DecidableEq, Repr

/-- `RecurringBill`; only the fields read by the calculators
(`amount`, `autoDeduct`, `isActive`) are modelled. -/
structure RecurringBill where
  id : String
  amount : ℚ
  autoDeduct : Bool
  isActive : Bool
deriving DecidableEq, Repr

/-- `FuelStatus` (`src/types/enums.ts`).  `percentage` is an integer
because the store rounds it (`Math.round(percentage)`). -/
structure FuelStatus where
  level : FuelLevel
  percentage : ℤ
  daysRemaining : ℤ
  color : String
  warningMessage : Option String
deriving DecidableEq, Repr

/-- The slice of the app store state (`AppState` in
`src/stores/appStore.ts`) read and written by the ledger actions and
calculators.  `error` mirrors the store's `error: string | null` field;
the transient `isLoading` flag and the `user` profile are not modelled. -/
structure AppState where
  salary : Option SalaryData
  expenses : List Expense
  recurringBills : List RecurringBill
  currentBalance : ℚ
  daysRemaining : ℤ
  averageDailySpend : ℚ
  fuelStatus : FuelStatus
  error : Option String
deriving DecidableEq, Repr

/-- `getFuelLevel` helper of `src/stores/appStore.ts`. -/
def getFuelLevel (percentage : ℚ) : FuelLevel :=
  if percentage > 75 then .full
  else if percentage > 50 then .high
  else if percentage > 25 then .medium
  else if percentage > 10 then .low
  else if percentage > 5 then .critical
  else .empty

/-- `getFuelColor` helper of `src/stores/appStore.ts`. -/
def getFuelColor : FuelLevel → String
  | .full => "#22c55e"
  | .high => "#22c55e"
  | .medium => "#f59e0b"
  | .low => "#ef4444"
  | .critical => "#991b1b"
  | .empty => "#991b1b"

/-- `.reduce((sum, x) => sum + x.amount, 0)` over a list of amounts. -/
def sumAmounts (l : List ℚ) : ℚ := l.foldr (· + ·) 0

theorem manual_ne_recurring : ExpenseSource.manual ≠ ExpenseSource.recurring := by decide

theorem parsed_ne_recurring : ExpenseSource.parsed ≠ ExpenseSource.recurring := by decide

/-- Initial `fuelStatus` of the store (`initialState`). -/
def initialFuelStatus : FuelStatus :=
  { level := .empty, percentage := 0, daysRemaining := 0
    color := getFuelColor .empty, warningMessage := none }

/-- Initial app store state (`initialState` in `src/stores/appStore.ts`). -/
def initialAppState : AppState :=
  { salary := none, expenses := [], recurringBills := []
    currentBalance := 0, daysRemaining := 0, averageDailySpend := 0
    fuelStatus := initialFuelStatus, error := none }

/-- `calculateBalance` from `src/stores/appStore.ts`:
no salary → `0`; otherwise
`max(0, salary.amount − Σ expenses − Σ {isActive ∧ autoDeduct} bills)`. -/
def calculateBalance (s : AppState) : ℚ :=
  match s.salary with
  | none => 0
  | some sal =>
      let totalExpenses := sumAmounts (s.expenses.map (·.amount))
      let recurringBillsTotal :=
        sumAmounts ((s.recurringBills.filter fun b => b.isActive && b.autoDeduct).map (·.amount))
      max 0 (sal.amount - totalExpenses - recurringBillsTotal)

/-- `calculateAverageDailySpend` from `src/stores/appStore.ts`.  `now`
is the timestamp of `new Date()` at call time. -/
def calculateAverageDailySpend (now : ℤ) (s : AppState) : ℚ :=
  if s.expenses.length = 0 then 0
  else
    let thirtyDaysAgo := now - thirtyDaysMs
    let recentExpenses := s.expenses.filter fun e =>
      e.date.ge thirtyDaysAgo && e.source ≠ .recurring
    if recentExpenses.length = 0 then 0
    else
      let totalAmount := sumAmounts (recentExpenses.map (·.amount))
      let daysDiff : ℤ := max 1 ⌈((now - thirtyDaysAgo : ℤ) : ℚ) / (msPerDay : ℚ)⌉
      totalAmount / (daysDiff : ℚ)

/-- `calculateDaysRemaining` from `src/stores/appStore.ts`. -/
def calculateDaysRemaining (now : ℤ) (s : AppState) : ℤ :=
  let balance := calculateBalance s
  let avgDailySpend := calculateAverageDailySpend now s
  if avgDailySpend = 0 then (if balance > 0 then 999 else 0)
  else ⌊balance / avgDailySpend⌋

/-- An immediate push notification sent by
`NotificationService.sendImmediateNotification`. -/
structure FuelNote where
  title : String
  message : String
  dataType : String
deriving DecidableEq, Repr

/-- `NotificationService.generateFuelNotifications`
(`src/services/notificationService.ts`, lines 134-175).  The function
reads `useAppStore.getState().fuelStatus` and branches on its `level`:
empty, critical and low send the corresponding warning, full and high
send the "refueled" message, and medium falls through every branch and
sends nothing.  The argument is the level it observes in the store. -/
def generateFuelNotifications : FuelLevel → Option FuelNote
  | .empty =>
      some { title := "Fuel Tank Empty!"
             message := "Your balance is critically low. Time to refuel!"
             dataType := "fuel_empty" }
  | .critical =>
      some { title := "Critical Fuel Level!"
             message := "Only a few days of fuel left. Plan your expenses carefully."
             dataType := "fuel_critical" }
  | .low =>
      some { title := "Low Fuel Warning!"
             message := "Your fuel is running low. Consider reducing expenses."
             dataType := "fuel_low" }
  | .full =>
      some { title := "Fuel Tank Refueled!"
             message := "Great job! Your fuel tank is now full."
             dataType := "fuel_full" }
  | .high =>
      some { title := "Fuel Tank Refueled!"
             message := "Great job! Your fuel tank is now full."
             dataType := "fuel_full" }
  | .medium => none

/-- `calculateFuelStatus` from `src/stores/appStore.ts`, together with
the fuel notification it triggers.  The second component models the
`NotificationService.generateFuelNotifications()` call: it fires when
`state.fuelStatus.level !== level`, and because the store's `set` has
not executed yet at that point, the service still observes the
*previous* `fuelStatus` in the store — so the notification content is
chosen by the previous level, not the new one. -/
def calculateFuelStatus (now : ℤ) (s : AppState) : FuelStatus × Option FuelNote :=
  match s.salary with
  | none =>
      ({ level := .empty, percentage := 0, daysRemaining := 0
         color := getFuelColor .empty
         warningMessage := some "Please set your salary first" }, none)
  | some sal =>
      let balance := calculateBalance s
      let percentage : ℚ := max 0 (min 100 ((balance / sal.amount) * 100))
      let level := getFuelLevel percentage
      let daysRemaining := calculateDaysRemaining now s
      let warningMessage : Option String :=
        match level with
        | .empty => some "Emergency! Refuel immediately!"
        | .critical => some "Critical fuel level! Take action soon."
        | .low => some "Low fuel warning! Plan your expenses carefully."
        | _ => none
      let note := if s.fuelStatus.level ≠ level
        then generateFuelNotifications s.fuelStatus.level
        else none
      ({ level := level, percentage := jsRound percentage
         daysRemaining := daysRemaining, color := getFuelColor level
         warningMessage := warningMessage }, note)

end DontGoBroke

namespace DontGoBroke

/-! ## C1: the balance formula -/

/-- **C1.**  For every ledger state, `calculateBalance` returns
`max(0, salary.amount − Σ expense amounts − Σ amounts of bills with
isActive ∧ autoDeduct)`, hence is always nonnegative, and returns `0`
when no salary is set. -/
theorem calculateBalance_spec (s : AppState) :
    0 ≤ calculateBalance s ∧
    (s.salary = none → calculateBalance s = 0) ∧
    (∀ sal : SalaryData, s.salary = some sal →
      calculateBalance s =
        max 0 (sal.amount - (s.expenses.map (·.amount)).sum -
          (((s.recurringBills.filter fun b => b.isActive && b.autoDeduct).map (·.amount)).sum))) := by
  have hsum : ∀ l : List ℚ, sumAmounts l = l.sum := by
    intro l
    induction l with
    | nil => rfl
    | cons x xs ih => simp [sumAmounts, List.foldr] at ih ⊢ ; rw [ih]
  refine ⟨?_, ?_, ?_⟩
  · cases h : s.salary with
    | none => simp [calculateBalance, h]
    | some sal => simp only [calculateBalance, h] ; exact le_max_left 0 _
  · intro h ; simp [calculateBalance, h]
  · intro sal h ; simp [calculateBalance, h, hsum]

/-- Witness for C1 at a concrete ledger: salary 10000, expenses 1500 and
500, one active auto-deduct bill of 2000 and one inactive bill. -/
theorem calculateBalance_spec_witness :
    calculateBalance
      { initialAppState with
        salary := some { amount := 10000 }
        expenses :=
          [{ id := "e1", amount := 1500, category := "Food"
             date := .date 0, source := .manual, createdAt := .date 0, updatedAt := .date 0 },
           { id := "e2", amount := 500, category := "Transport"
             date := .date 0, source := .manual, createdAt := .date 0, updatedAt := .date 0 }]
        recurringBills :=
          [{ id := "b1", amount := 2000, autoDeduct := true, isActive := true },
           { id := "b2", amount := 700, autoDeduct := true, isActive := false }] } = 6000 := by
  have h := (calculateBalance_spec
    { initialAppState with
      salary := some { amount := 10000 }
      expenses :=
        [{ id := "e1", amount := 1500, category := "Food"
           date := .date 0, source := .manual, createdAt := .date 0, updatedAt := .date 0 },
         { id := "e2", amount := 500, category := "Transport"
           date := .date 0, source := .manual, createdAt := .date 0, updatedAt := .date 0 }]
      recurringBills :=
        [{ id := "b1", amount := 2000, autoDeduct := true, isActive := true },
         { id := "b2", amount := 700, autoDeduct := true, isActive := false }] }).2.2
    { amount := 10000 } rfl
  rw [h]
  norm_num

/-! ## C8: the three-expense scenario

Scenario 4 of the spec: salary 15000, expenses 2000 (today), 1500
(yesterday), 1000 (two days ago).  The code filters the trailing 30-day
window and divides by `max(1, ceil(30)) = 30`, not by the 3-day span of
the expenses, so the claimed values 1500 / 7 / medium are wrong. -/

/-- Timestamp used as "now" in the scenario (2026-10-11T00:00:00Z). -/
def c8Now : ℤ := 1760140800000

/-- The scenario ledger: salary 15000; expenses 2000 today, 1500
yesterday, 1000 two days ago. -/
def c8State : AppState :=
  { initialAppState with
    salary := some { amount := 15000 }
    expenses :=
      [{ id := "e1", amount := 2000, category := "Food"
         date := .date c8Now, source := .manual
         createdAt := .date c8Now, updatedAt := .date c8Now },
       { id := "e2", amount := 1500, category := "Transport"
         date := .date (c8Now - msPerDay), source := .manual
         createdAt := .date c8Now, updatedAt := .date c8Now },
       { id := "e3", amount := 1000, category := "Shopping"
         date := .date (c8Now - 2 * msPerDay), source := .manual
         createdAt := .date c8Now, updatedAt := .date c8Now }] }

/-- Evaluation of `calculateAverageDailySpend` in the C8 scenario:
`(2000 + 1500 + 1000) / max(1, ceil(30)) = 150`. -/
theorem c8_avg : calculateAverageDailySpend c8Now c8State = 150 := by
  rw [calculateAverageDailySpend]
  simp only [c8State, c8Now, initialAppState, msPerDay, thirtyDaysMs, JsDate.ge,
    sumAmounts, List.filter_cons, List.filter_nil, List.map_cons, List.map_nil,
    List.foldr_cons, List.foldr_nil, List.length_cons, List.length_nil]
  norm_num [max_def, manual_ne_recurring]

/-- Evaluation of `calculateBalance` in the C8 scenario:
`max(0, 15000 − 4500) = 10500`. -/
theorem c8_balance : calculateBalance c8State = 10500 := by
  have hsal : c8State.salary = some { amount := 15000 } := rfl
  simp only [calculateBalance, hsal, c8State, initialAppState, sumAmounts,
    List.filter_nil, List.map_cons, List.map_nil, List.foldr_cons, List.foldr_nil]
  norm_num [max_def]

/-- Evaluation of the fuel status in the C8 scenario. -/
theorem c8_fuelStatus :
    (calculateFuelStatus c8Now c8State).1.percentage = 70 ∧
    (calculateFuelStatus c8Now c8State).1.level = FuelLevel.high := by
  have hsal : c8State.salary = some { amount := 15000 } := rfl
  constructor <;>
  · simp only [calculateFuelStatus, hsal]
    rw [c8_balance]
    norm_num [getFuelLevel, jsRound, min_def, max_def]

/-- **C8, counterexample.**  In the scenario the code computes
`daysRemaining = 70` (not 7) and `fuelLevel = high` (not medium): the
sum 4500 is divided by the whole 30-day window, not by the 3-day span,
and 70% is above the `> 50` threshold for `high`. -/
theorem c8_counterexample :
    calculateDaysRemaining c8Now c8State = 70 ∧ (70 : ℤ) ≠ 7 ∧
    (calculateFuelStatus c8Now c8State).1.level = FuelLevel.high ∧
    FuelLevel.high ≠ FuelLevel.medium := by
  have hdays : calculateDaysRemaining c8Now c8State = 70 := by
    rw [calculateDaysRemaining, c8_avg, c8_balance]
    norm_num
  exact ⟨hdays, by decide, c8_fuelStatus.2, by decide⟩

/-- **C8, amended.**  With salary 15000 and exactly the three expenses
2000 (today), 1500 (yesterday), 1000 (two days ago), the calculators
yield `averageDailySpend = 150`, `daysRemaining = 70`,
`fuelPercentage = 70` and `fuelLevel = high`. -/
theorem c8_amended :
    calculateAverageDailySpend c8Now c8State = 150 ∧
    calculateDaysRemaining c8Now c8State = 70 ∧
    (calculateFuelStatus c8Now c8State).1.percentage = 70 ∧
    (calculateFuelStatus c8Now c8State).1.level = FuelLevel.high := by
  have hdays : calculateDaysRemaining c8Now c8State = 70 := by
    rw [calculateDaysRemaining, c8_avg, c8_balance]
    norm_num
  exact ⟨c8_avg, hdays, c8_fuelStatus.1, c8_fuelStatus.2⟩

/-! ## C2: fuel-level notification gating

`calculateFuelStatus` calls `NotificationService.generateFuelNotifications()`
whenever the level *changes* in either direction, and the service still
observes the previous level in the store, so the notification is chosen
by the previous level.  Downgrade-only gating exists in the repository
only in `GamificationEngine.createFuelLevelChangeNotification`, which
this code path does not use. -/

/-- `generateFuelNotifications` sends nothing exactly for the `medium` level. -/
theorem generateFuelNotifications_eq_none_iff (l : FuelLevel) :
    generateFuelNotifications l = none ↔ l = FuelLevel.medium := by
  cases l <;> simp [generateFuelNotifications]

/-- A state whose stored fuel status is `low` while the ledger now
supports 40% fuel (`medium`): salary 1000, a single expense of 600. -/
def c2State : AppState :=
  { initialAppState with
    salary := some { amount := 1000 }
    expenses :=
      [{ id := "e1", amount := 600, category := "Food"
         date := .date c8Now, source := .manual
         createdAt := .date c8Now, updatedAt := .date c8Now }]
    fuelStatus := { initialFuelStatus with level := .low } }

/-- **C2, counterexample.**  Recomputing the metrics of `c2State`
*upgrades* the level from `low` (index 2) to `medium` (index 3), yet a
fuel notification is emitted (the service still sees the old `low`
level and sends the low-fuel warning).  This refutes "a fuel
notification is emitted only on downgrade". -/
theorem c2_counterexample :
    (calculateFuelStatus c8Now c2State).1.level = FuelLevel.medium ∧
    levelIndex c2State.fuelStatus.level <
      levelIndex (calculateFuelStatus c8Now c2State).1.level ∧
    (calculateFuelStatus c8Now c2State).2 =
      some { title := "Low Fuel Warning!"
             message := "Your fuel is running low. Consider reducing expenses."
             dataType := "fuel_low" } := by
  have hsal : c2State.salary = some { amount := 1000 } := rfl
  have hbal : calculateBalance c2State = 400 := by
    have hsal : c2State.salary = some { amount := 1000 } := rfl
    simp only [calculateBalance, hsal, c2State, initialAppState, sumAmounts,
      List.filter_nil, List.map_cons, List.map_nil, List.foldr_cons, List.foldr_nil]
    norm_num [max_def]
  have hlevel : (calculateFuelStatus c8Now c2State).1.level = FuelLevel.medium := by
    simp only [calculateFuelStatus, hsal]
    rw [hbal]
    norm_num [getFuelLevel, min_def, max_def]
  refine ⟨hlevel, ?_, ?_⟩
  · rw [hlevel] ; decide
  · simp only [calculateFuelStatus, hsal]
    rw [hbal]
    norm_num [getFuelLevel, generateFuelNotifications, min_def, max_def]
    decide

/-- **C2, amended.**  For every state with a salary set, recomputing the
fuel status emits a fuel notification exactly when the stored (previous)
level differs from the newly computed level *and* the previous level is
not `medium`; the notification content is chosen by the previous level
(empty/critical/low send the respective warning, high/full send the
"refueled" message).  In particular nothing is emitted on a same-level
recomputation, but upgrades out of empty/critical/low do notify. -/
theorem c2_amended (now : ℤ) (s : AppState) (sal : SalaryData)
    (h : s.salary = some sal) :
    ((calculateFuelStatus now s).2 ≠ none ↔
      (s.fuelStatus.level ≠ (calculateFuelStatus now s).1.level ∧
        s.fuelStatus.level ≠ FuelLevel.medium)) := by
  simp only [calculateFuelStatus, h]
  by_cases hL : s.fuelStatus.level =
      getFuelLevel (max 0 (min 100 (calculateBalance s / sal.amount * 100)))
  · simp [hL]
  · simp [hL, generateFuelNotifications_eq_none_iff,
      Option.ne_none_iff_isSome, Option.isSome_iff_ne_none]

/-- Witness for C2 (amended) at the concrete state `c2State`. -/
theorem c2_amended_witness :
    ((calculateFuelStatus c8Now c2State).2 ≠ none ↔
      (c2State.fuelStatus.level ≠ (calculateFuelStatus c8Now c2State).1.level ∧
        c2State.fuelStatus.level ≠ FuelLevel.medium)) :=
  c2_amended c8Now c2State { amount := 1000 } rfl

/-! ## C4: `addExpense` and invalid amounts -/

/-- `ExpenseInput` (`src/types/core.ts`): `date` and `source` are
optional and default to `new Date()` and `'manual'` in `addExpense`. -/
structure ExpenseInput where
  amount : ℚ
  category : String
  date : Option JsDate
  source : Option ExpenseSource
deriving DecidableEq, Repr

/-- `addExpense` from `src/stores/appStore.ts` (lines 192-248): builds
the `Expense` record (no validation of any kind), appends it, and
recomputes the four derived metrics.  `now` is the wall clock and
`newId` the value produced by `generateId()`.  The big-spend
notification side effect reads but does not change the ledger and is
not modelled here. -/
def addExpense (now : ℤ) (newId : String) (inp : ExpenseInput) (s : AppState) : AppState :=
  let expense : Expense :=
    { id := newId, amount := inp.amount, category := inp.category
      date := inp.date.getD (.date now), source := inp.source.getD .manual
      createdAt := .date now, updatedAt := .date now }
  let s1 := { s with expenses := s.expenses ++ [expense], error := none }
  { s1 with
    currentBalance := calculateBalance s1
    daysRemaining := calculateDaysRemaining now s1
    averageDailySpend := calculateAverageDailySpend now s1
    fuelStatus := (calculateFuelStatus now s1).1 }

/-- A nonpositive expense input (amount −5). -/
def c4Input : ExpenseInput :=
  { amount := -5, category := "Food", date := none, source := none }

/-- Ledger with only a salary of 100 set. -/
def c4State : AppState :=
  { initialAppState with salary := some { amount := 100 } }

/-- **C4, counterexample.**  `addExpense` accepts the amount −5: the
expense is appended to the ledger (which is therefore *changed*) and no
error is surfaced (`error` is cleared to `none`). -/
theorem c4_counterexample :
    c4Input.amount ≤ 0 ∧
    (addExpense c8Now "id1" c4Input c4State).expenses ≠ c4State.expenses ∧
    (addExpense c8Now "id1" c4Input c4State).error = none := by
  refine ⟨by norm_num [c4Input], ?_, rfl⟩
  simp [addExpense, c4State, initialAppState]

/-- **C4, amended.**  `addExpense` performs no amount validation at the
store level: for *every* input, including `amount ≤ 0`, it appends
exactly one expense built from the input, leaves salary and bills
untouched, clears the error, and recomputes the derived metrics.
(Amount validation exists only in the UI forms, which check
`isNaN(amount) || amount <= 0` before calling the store.) -/
theorem c4_amended (now : ℤ) (newId : String) (inp : ExpenseInput) (s : AppState) :
    (addExpense now newId inp s).expenses =
      s.expenses ++
        [{ id := newId, amount := inp.amount, category := inp.category
           date := inp.date.getD (.date now), source := inp.source.getD .manual
           createdAt := .date now, updatedAt := .date now }] ∧
    (addExpense now newId inp s).salary = s.salary ∧
    (addExpense now newId inp s).recurringBills = s.recurringBills ∧
    (addExpense now newId inp s).error = none ∧
    (addExpense now newId inp s).currentBalance =
      calculateBalance (addExpense now newId inp s) := by
  refine ⟨rfl, rfl, rfl, rfl, ?_⟩
  rfl

/-! ## C6: the persistence round trip

`appStorePersistConfig.partialize` keeps `user`, `salary`, `expenses`
and `recurringBills`; the derived metrics are dropped and recomputed on
load.  But persistence goes through `JSON.stringify`/`JSON.parse`
without a date reviver, so every `Date` comes back as an ISO-8601
*string*, and the reloaded `expense.date >= thirtyDaysAgo` comparison in
`calculateAverageDailySpend` is then always false (`ToNumber` of the
string is `NaN`). -/

/-- `JSON.stringify` followed by `JSON.parse` on a date-typed field. -/
def serializeDate : JsDate → JsDate
  | .date ms => .str (isoString ms)
  | .str s => .str s

/-- The JSON round trip of an `Expense` record: amounts, strings and
enums survive, every `Date` becomes its ISO string. -/
def serializeExpense (e : Expense) : Expense :=
  { e with
    date := serializeDate e.date
    createdAt := serializeDate e.createdAt
    updatedAt := serializeDate e.updatedAt }

/-- Persist-then-reload of the app store
(`src/stores/persistence.ts`): `partialize` keeps salary, expenses and
recurring bills; `loadPersistedState` merges the parsed JSON over the
initial state (`set({ ...initialState, ...stateToRestore })`), so the
derived fields come back as their initial values and all dates are now
strings. -/
def persistRoundTrip (s : AppState) : AppState :=
  { initialAppState with
    salary := s.salary
    expenses := s.expenses.map serializeExpense
    recurringBills := s.recurringBills }

/-- The balance really is reproduced by the round trip (it reads no
dates), for every state. -/
theorem persistRoundTrip_balance (s : AppState) :
    calculateBalance (persistRoundTrip s) = calculateBalance s := by
  have hmap : (s.expenses.map serializeExpense).map (·.amount) =
      s.expenses.map (·.amount) := by
    rw [List.map_map] ; rfl
  cases h : s.salary with
  | none => simp [calculateBalance, persistRoundTrip, h]
  | some sal => simp [calculateBalance, persistRoundTrip, h, hmap]

/-- State for the C6 failing input: salary 15000, one expense of 2000
dated now. -/
def c6State : AppState :=
  { initialAppState with
    salary := some { amount := 15000 }
    expenses :=
      [{ id := "e1", amount := 2000, category := "Food"
         date := .date c8Now, source := .manual
         createdAt := .date c8Now, updatedAt := .date c8Now }] }

/-- **C6.**  Persisting and reloading `c6State` does *not* reproduce the
derived metrics: before the round trip `averageDailySpend = 200/3` and
`daysRemaining = 195`; after it the deserialized string dates make the
30-day filter reject everything, giving `averageDailySpend = 0` and the
sentinel `daysRemaining = 999`.  (The balance is unchanged, per
`persistRoundTrip_balance`.) -/
theorem c6_roundTrip_breaks_metrics :
    calculateAverageDailySpend c8Now c6State = 200 / 3 ∧
    calculateAverageDailySpend c8Now (persistRoundTrip c6State) = 0 ∧
    calculateDaysRemaining c8Now c6State = 195 ∧
    calculateDaysRemaining c8Now (persistRoundTrip c6State) = 999 := by
  have hbal : calculateBalance c6State = 13000 := by
    have hsal : c6State.salary = some { amount := 15000 } := rfl
    simp only [calculateBalance, hsal, c6State, initialAppState, sumAmounts,
      List.filter_nil, List.map_cons, List.map_nil, List.foldr_cons, List.foldr_nil]
    norm_num [max_def]
  have hbal2 : calculateBalance (persistRoundTrip c6State) = 13000 := by
    rw [persistRoundTrip_balance, hbal]
  have havg : calculateAverageDailySpend c8Now c6State = 200 / 3 := by
    rw [calculateAverageDailySpend]
    simp only [c6State, c8Now, initialAppState, msPerDay, thirtyDaysMs, JsDate.ge,
      sumAmounts, List.filter_cons, List.filter_nil, List.map_cons, List.map_nil,
      List.foldr_cons, List.foldr_nil, List.length_cons, List.length_nil]
    norm_num [max_def, manual_ne_recurring]
  have havg2 : calculateAverageDailySpend c8Now (persistRoundTrip c6State) = 0 := by
    rw [calculateAverageDailySpend]
    simp only [persistRoundTrip, c6State, c8Now, initialAppState, msPerDay, thirtyDaysMs,
      serializeExpense, serializeDate, JsDate.ge, List.map_cons, List.map_nil,
      List.filter_cons, List.filter_nil, List.length_cons, List.length_nil]
    norm_num
  refine ⟨havg, havg2, ?_, ?_⟩
  · rw [calculateDaysRemaining, havg, hbal]
    norm_num
  · rw [calculateDaysRemaining, havg2, hbal2]
    norm_num

/-! ## Suggestion machinery (C7 and C3) -/

/-- `NotificationPriority` enum (`src/types/enums.ts`). -/
inductive NotificationPriority where
  | low
  | normal
  | high
  | urgent
deriving DecidableEq, Repr

/-- The `priorityOrder` table of `SuggestionEngine.generateSuggestions`
(urgent 4, high 3, normal 2, low 1). -/
def priorityOrder : NotificationPriority → ℕ
  | .urgent => 4
  | .high => 3
  | .normal => 2
  | .low => 1

/-- `SuggestionType` enum (`src/types/suggestions.ts`). -/
inductive SuggestionType where
  | emergency
  | investment
  | savings
  | budgetAdjustment
  | categoryOptimization
  | recurringBill
  | fuelWarning
deriving DecidableEq, Repr

/-- `SuggestionAction` enum (`src/types/suggestions.ts`). -/
inductive SuggestionAction where
  | save
  | invest
  | reduceSpending
  | reviewExpenses
  | addIncome
  | transferMoney
  | setReminder
  | adjustBudget
deriving DecidableEq, Repr

/-- `impact` payload of a suggestion. -/
structure SuggestionImpact where
  daysGained : Option ℚ
  moneySaved : Option ℚ
  confidenceScore : ℚ
deriving DecidableEq, Repr

/-- `SuggestionInput` (`src/types/suggestions.ts`); `description` and
`actionData` carry no behaviour and are not modelled. -/
structure SuggestionInput where
  type : SuggestionType
  title : String
  action : SuggestionAction
  priority : Option NotificationPriority
  actionAmount : Option ℚ
  category : Option String
  impact : SuggestionImpact
  expiresAt : Option ℤ
deriving DecidableEq, Repr

/-- A stored `Suggestion` record as created by `addSuggestion` in
`src/stores/suggestionsStore.ts`. -/
structure Suggestion where
  id : String
  type : SuggestionType
  title : String
  action : SuggestionAction
  priority : NotificationPriority
  actionAmount : Option ℚ
  category : Option String
  impact : SuggestionImpact
  isApplied : Bool
  isDismissed : Bool
  createdAt : ℤ
  expiresAt : Option ℤ
deriving DecidableEq, Repr

/-- `FinancialContext` (`src/types/core.ts`), produced by
`getFinancialContext`. -/
structure FinancialContext where
  balance : ℚ
  daysLeft : ℤ
  salary : ℚ
  avgDailySpend : ℚ
  topCategories : List String
  totalExpenses : ℚ
  recurringBillsAmount : ℚ
deriving DecidableEq, Repr

/-- `generateRuleBasedSuggestions` from `src/stores/suggestionsStore.ts`
(lines 248-367).  Each rule pushes one suggestion when its guard holds;
the guards and all numeric payloads are taken verbatim from the source.
Note the emergency threshold is `balance < salary * 0.1` there. -/
def generateRuleBasedSuggestions (ctx : FinancialContext) : List SuggestionInput :=
  (if ctx.balance < ctx.salary * 0.1 then
    [{ type := .emergency, title := "Emergency Mode"
       action := .reduceSpending, priority := some .urgent
       actionAmount := none, category := none
       impact := { daysGained := some 5, moneySaved := some (ctx.avgDailySpend * 5)
                   confidenceScore := 0.9 }
       expiresAt := none }]
  else []) ++
  (if ctx.balance > ctx.salary * 0.5 ∧ ctx.daysLeft > 20 then
    [{ type := .investment, title := "Investment Opportunity"
       action := .invest, priority := some .normal
       actionAmount := some (⌊ctx.balance * 0.3⌋ : ℤ), category := none
       impact := { daysGained := none, moneySaved := some ((⌊ctx.balance * 0.3⌋ : ℤ) * 0.08)
                   confidenceScore := 0.7 }
       expiresAt := none }]
  else []) ++
  (if ctx.daysLeft > 25 then
    [{ type := .savings, title := "Great Job!"
       action := .save, priority := some .low
       actionAmount := some (⌊ctx.balance * 0.2⌋ : ℤ), category := none
       impact := { daysGained := none, moneySaved := some ((⌊ctx.balance * 0.2⌋ : ℤ) : ℚ)
                   confidenceScore := 0.8 }
       expiresAt := none }]
  else []) ++
  (if ctx.daysLeft < 10 ∧ ctx.daysLeft > 0 then
    [{ type := .budgetAdjustment, title := "Budget Alert"
       action := .adjustBudget, priority := some .high
       actionAmount := none, category := none
       impact := { daysGained := some 10, moneySaved := some (ctx.avgDailySpend * 10)
                   confidenceScore := 0.85 }
       expiresAt := none }]
  else []) ++
  (match ctx.topCategories with
   | [] => []
   | topCategory :: _ =>
      [{ type := .categoryOptimization, title := "Category Focus"
         action := .reviewExpenses, priority := some .normal
         actionAmount := none, category := some topCategory
         impact := { daysGained := some 3, moneySaved := some (ctx.avgDailySpend * 0.3)
                     confidenceScore := 0.6 }
         expiresAt := none }]) ++
  (if ctx.recurringBillsAmount > ctx.salary * 0.4 then
    [{ type := .recurringBill, title := "Bill Review"
       action := .reviewExpenses, priority := some .normal
       actionAmount := none, category := none
       impact := { daysGained := some 5, moneySaved := some (ctx.recurringBillsAmount * 0.2)
                   confidenceScore := 0.75 }
       expiresAt := none }]
  else [])

/-- `SpendingAnalytics`; only `categoryBreakdown` is read by the
suggestion generators. -/
structure CategorySpending where
  category : String
  amount : ℚ
  percentage : ℚ
  count : ℕ
deriving DecidableEq, Repr

structure SpendingAnalytics where
  categoryBreakdown : List CategorySpending
deriving DecidableEq, Repr

/-- `MockAIService.generateSuggestions` from `src/services/aiService.ts`
(the generator actually wired into the store via `createAIService()`).
It pushes a fuel warning when `daysLeft < 10`, a category optimization
when the analytics' top category exceeds 30%, and always an investment
insight. -/
def mockAIGenerateSuggestions (ctx : FinancialContext)
    (analytics : Option SpendingAnalytics) : List SuggestionInput :=
  (if ctx.daysLeft < 10 then
    [{ type := .fuelWarning, title := "AI-Powered Fuel Warning"
       action := .reduceSpending, priority := some .high
       actionAmount := none, category := none
       impact := { daysGained := none, moneySaved := none, confidenceScore := 0.85 }
       expiresAt := none }]
  else []) ++
  (match analytics with
   | none => []
   | some a =>
      match a.categoryBreakdown with
      | [] => []
      | highestCategory :: _ =>
          if highestCategory.percentage > 30 then
            [{ type := .categoryOptimization, title := "AI Category Optimization"
               action := .reviewExpenses, priority := some .normal
               actionAmount := none, category := some highestCategory.category
               impact := { daysGained := none, moneySaved := none, confidenceScore := 0.75 }
               expiresAt := none }]
          else []) ++
  [{ type := .investment, title := "AI Investment Insight"
     action := .invest, priority := some .normal
     actionAmount := none, category := none
     impact := { daysGained := none, moneySaved := none, confidenceScore := 0.7 }
     expiresAt := none }]

/-- The suggestions slice of `useSuggestionsStore`'s state. -/
structure SuggState where
  suggestions : List Suggestion
deriving DecidableEq, Repr

/-- The record built by `addSuggestion` from an input. -/
def mkSuggestion (newId : String) (now : ℤ) (inp : SuggestionInput) : Suggestion :=
  { id := newId, type := inp.type, title := inp.title, action := inp.action
    priority := inp.priority.getD .normal
    actionAmount := inp.actionAmount, category := inp.category
    impact := inp.impact, isApplied := false, isDismissed := false
    createdAt := now, expiresAt := inp.expiresAt }

/-- `generateSuggestions` from `src/stores/suggestionsStore.ts` (lines
169-206): keep only applied/dismissed suggestions, then `addSuggestion`
each AI suggestion followed by each rule-based suggestion, in order.
There is no sorting and no truncation in this code path.  `newIds i` is
the id generated for the `i`-th added suggestion. -/
def generateSuggestionsStore (now : ℤ) (newIds : ℕ → String)
    (ctx : FinancialContext) (analytics : Option SpendingAnalytics)
    (st : SuggState) : SuggState :=
  let kept := st.suggestions.filter fun s => s.isApplied || s.isDismissed
  let ruleBasedSuggestions := generateRuleBasedSuggestions ctx
  let aiSuggestions := mockAIGenerateSuggestions ctx analytics
  let allSuggestions := aiSuggestions ++ ruleBasedSuggestions
  { st with suggestions :=
      kept ++ allSuggestions.enum.map fun p => mkSuggestion (newIds p.1) now p.2 }

/-- `getActiveSuggestions` from `src/stores/suggestionsStore.ts`. -/
def getActiveSuggestions (now : ℤ) (st : SuggState) : List Suggestion :=
  st.suggestions.filter fun s =>
    !s.isApplied && !s.isDismissed &&
      (match s.expiresAt with
       | none => true
       | some t => now < t)

/-- "`a` may precede `b`" for the ranking the spec describes: higher
priority first, ties broken by higher confidence. -/
def rankLeB (a b : Suggestion) : Bool :=
  priorityOrder b.priority < priorityOrder a.priority ||
    (priorityOrder b.priority = priorityOrder a.priority &&
      b.impact.confidenceScore ≤ a.impact.confidenceScore)

/-- Boolean check that a list is sorted by priority descending with
confidence tie-break. -/
def sortedByRankB : List Suggestion → Bool
  | [] => true
  | [_] => true
  | a :: b :: rest => rankLeB a b && sortedByRankB (b :: rest)

/-! ### C7: the emergency rule threshold -/

/-- Context with `balance = 7`, `salary = 100`: between the claimed 5%
threshold and the actual 10% threshold. -/
def c7Ctx : FinancialContext :=
  { balance := 7, daysLeft := 15, salary := 100, avgDailySpend := 1
    topCategories := [], totalExpenses := 93, recurringBillsAmount := 0 }

/-- **C7, counterexample.**  With balance 7 and salary 100 the rule
generator *does* produce the emergency suggestion (the only one, here)
even though `balance < 0.05·salary` is false: the code's threshold is
`0.1·salary`. -/
theorem c7_counterexample :
    (generateRuleBasedSuggestions c7Ctx).map (·.type) = [SuggestionType.emergency] ∧
    ¬(c7Ctx.balance < 0.05 * c7Ctx.salary) := by
  constructor
  · rw [generateRuleBasedSuggestions]
    norm_num [c7Ctx]
  · norm_num [c7Ctx]

/-- **C7, amended.**  The rule-based generator produces the urgent
emergency (reduce-spending) suggestion exactly when
`balance < 0.1·salary`. -/
theorem c7_amended (ctx : FinancialContext) :
    ((generateRuleBasedSuggestions ctx).any fun s => s.type = SuggestionType.emergency) = true ↔
      ctx.balance < ctx.salary * 0.1 := by
  rw [generateRuleBasedSuggestions]
  rcases ctx.topCategories with _ | ⟨c, cs⟩ <;>
    split_ifs <;>
      simp_all [List.any_append]

/-! ### C3: ranking and truncation of generated suggestions -/

/-- Context triggering six suggestions: the AI fuel warning and
investment insight, plus the emergency, budget-adjustment,
category-focus and bill-review rules. -/
def c3Ctx : FinancialContext :=
  { balance := 4, daysLeft := 5, salary := 100, avgDailySpend := 10
    topCategories := ["Food"], totalExpenses := 96, recurringBillsAmount := 50 }

/-- **C3, counterexample.**  After the store's `generateSuggestions` on
`c3Ctx` (from an empty store), the active suggestion list has 6 > 5
entries and is not sorted by priority: the urgent emergency suggestion
sits in third position, after two AI suggestions of high and normal
priority. -/
theorem c3_counterexample :
    (getActiveSuggestions 0 (generateSuggestionsStore 0 (fun i => toString i) c3Ctx none
        { suggestions := [] })).length = 6 ∧
    sortedByRankB (getActiveSuggestions 0 (generateSuggestionsStore 0 (fun i => toString i)
        c3Ctx none { suggestions := [] })) = false := by
  have hnone : ∀ s ∈ mockAIGenerateSuggestions c3Ctx none ++ generateRuleBasedSuggestions c3Ctx,
      s.expiresAt = none := by
    rw [mockAIGenerateSuggestions, generateRuleBasedSuggestions]
    norm_num [c3Ctx]
  have hlist : getActiveSuggestions 0 (generateSuggestionsStore 0 (fun i => toString i) c3Ctx none
      { suggestions := [] }) =
      (((mockAIGenerateSuggestions c3Ctx none) ++ generateRuleBasedSuggestions c3Ctx).enum.map
        fun p => mkSuggestion (toString p.1) 0 p.2) := by
    rw [generateSuggestionsStore, getActiveSuggestions]
    simp only [List.filter_nil, List.nil_append]
    rw [List.filter_eq_self]
    intro s hs
    simp only [List.mem_map] at hs
    obtain ⟨p, hp, rfl⟩ := hs
    have hpe := hnone p.2 (List.snd_mem_of_mem_enum hp)
    simp [mkSuggestion, hpe]
  constructor
  · rw [hlist, generateRuleBasedSuggestions, mockAIGenerateSuggestions]
    norm_num [c3Ctx]
  · rw [hlist, generateRuleBasedSuggestions, mockAIGenerateSuggestions]
    norm_num [c3Ctx, List.enum, sortedByRankB, rankLeB, mkSuggestion, priorityOrder]

/-- Candidate list of `SuggestionEngine.generateSuggestions`
(`SuggestionEngine` class, before sorting): emergency, budget,
investment/savings, category optimization (first of the top three
categories above 40%, mirroring the `for … break` loop), recurring
bills, fuel warning — guards and payloads verbatim from the source. -/
def engineCandidates (now : ℤ) (ctx : FinancialContext)
    (analytics : Option SpendingAnalytics) : List SuggestionInput :=
  (if ctx.balance < ctx.salary * 0.05 ∨ ctx.daysLeft < 3 then
    [{ type := .emergency, title := "Emergency Mode Activated"
       action := .reduceSpending, priority := some .urgent
       actionAmount := none, category := none
       impact := { daysGained := some (⌊ctx.avgDailySpend * 0.5 / ctx.avgDailySpend⌋ : ℤ)
                   moneySaved := some (ctx.avgDailySpend * 0.5 * 7)
                   confidenceScore := 0.95 }
       expiresAt := none }]
  else if ctx.balance < ctx.salary * 0.1 ∨ ctx.daysLeft < 7 then
    [{ type := .emergency, title := "Low Fuel Warning"
       action := .reduceSpending, priority := some .high
       actionAmount := none, category := none
       impact := { daysGained := some 5
                   moneySaved := some (ctx.avgDailySpend * 0.3 * 7)
                   confidenceScore := 0.85 }
       expiresAt := none }]
  else []) ++
  (if ctx.avgDailySpend > ctx.salary / 30 ∧ ctx.daysLeft < 20 then
    [{ type := .budgetAdjustment, title := "Budget Optimization"
       action := .adjustBudget, priority := some .high
       actionAmount := none, category := none
       impact := { daysGained := some 10
                   moneySaved := some ((ctx.avgDailySpend - ctx.balance / 20) * 20)
                   confidenceScore := 0.8 }
       expiresAt := none }]
  else []) ++
  (if ctx.balance > ctx.salary * 0.5 ∧ ctx.daysLeft > 25 then
    [{ type := .investment, title := "Investment Opportunity"
       action := .invest, priority := some .normal
       actionAmount := some (⌊ctx.balance * 0.3⌋ : ℤ)
       category := none
       impact := { daysGained := none
                   moneySaved := some ((⌊ctx.balance * 0.3⌋ : ℤ) * 0.12)
                   confidenceScore := 0.7 }
       expiresAt := none }]
  else if ctx.balance > ctx.salary * 0.3 ∧ ctx.daysLeft > 20 then
    [{ type := .savings, title := "Smart Savings"
       action := .save, priority := some .normal
       actionAmount := some (⌊ctx.balance * 0.2⌋ : ℤ)
       category := none
       impact := { daysGained := none
                   moneySaved := some ((⌊ctx.balance * 0.2⌋ : ℤ) : ℚ)
                   confidenceScore := 0.8 }
       expiresAt := none }]
  else []) ++
  (match analytics with
   | none => []
   | some a =>
      match (a.categoryBreakdown.take 3).find? fun c => c.percentage > 40 with
      | none => []
      | some category =>
          [{ type := .categoryOptimization
             title := "Optimize " ++ category.category ++ " Spending"
             action := .reviewExpenses, priority := some .normal
             actionAmount := none, category := some category.category
             impact := { daysGained := some (⌊category.amount * 0.2 / ctx.avgDailySpend⌋ : ℤ)
                         moneySaved := some (category.amount * 0.2)
                         confidenceScore := 0.6 }
             expiresAt := none }]) ++
  (if ctx.recurringBillsAmount > ctx.salary * 0.4 then
    [{ type := .recurringBill, title := "Review Subscriptions"
       action := .reviewExpenses, priority := some .normal
       actionAmount := none, category := none
       impact := { daysGained := some (⌊ctx.recurringBillsAmount * 0.2 / ctx.avgDailySpend⌋ : ℤ)
                   moneySaved := some (ctx.recurringBillsAmount * 0.2)
                   confidenceScore := 0.75 }
       expiresAt := none }]
  else []) ++
  (if ctx.daysLeft < 10 ∧ ctx.daysLeft > 0 then
    [{ type := .fuelWarning, title := "Fuel Running Low"
       action := .reduceSpending, priority := some .high
       actionAmount := none, category := none
       impact := { daysGained := some (⌊(ctx.daysLeft : ℚ) * 0.4⌋ : ℤ)
                   moneySaved := some (ctx.avgDailySpend * 0.3 * ctx.daysLeft)
                   confidenceScore := 0.85 }
       expiresAt := some (now + 24 * 60 * 60 * 1000) }]
  else [])

/-- The comparator of `SuggestionEngine.generateSuggestions`, as a
"may precede" relation: the JS `sort` comparator returns
`bPriority − aPriority`, ties broken by `b.confidence − a.confidence`,
so `a` may come before `b` iff `b`'s priority is lower, or equal with
`b`'s confidence not larger.  Missing priorities default to normal, as
in `priorityOrder[a.priority || NORMAL]`. -/
def engineRankLe (a b : SuggestionInput) : Bool :=
  priorityOrder (b.priority.getD .normal) < priorityOrder (a.priority.getD .normal) ||
    (priorityOrder (b.priority.getD .normal) = priorityOrder (a.priority.getD .normal) &&
      b.impact.confidenceScore ≤ a.impact.confidenceScore)

theorem engineRankLe_iff (a b : SuggestionInput) :
    engineRankLe a b = true ↔
      (priorityOrder (b.priority.getD .normal) < priorityOrder (a.priority.getD .normal) ∨
        (priorityOrder (b.priority.getD .normal) = priorityOrder (a.priority.getD .normal) ∧
          b.impact.confidenceScore ≤ a.impact.confidenceScore)) := by
  simp [engineRankLe]

theorem engineRankLe_trans (a b c : SuggestionInput)
    (hab : engineRankLe a b = true) (hbc : engineRankLe b c = true) :
    engineRankLe a c = true := by
  rw [engineRankLe_iff] at hab hbc ⊢
  rcases hab with h1 | ⟨h1, h2⟩ <;> rcases hbc with h3 | ⟨h3, h4⟩
  · exact Or.inl (lt_trans h3 h1)
  · exact Or.inl (lt_of_le_of_lt (le_of_eq h3) h1)
  · exact Or.inl (lt_of_lt_of_le h3 (le_of_eq h1))
  · exact Or.inr ⟨h3.trans h1, h4.trans h2⟩

theorem engineRankLe_total (a b : SuggestionInput) :
    (engineRankLe a b || engineRankLe b a) = true := by
  rw [Bool.or_eq_true, engineRankLe_iff, engineRankLe_iff]
  rcases lt_trichotomy (priorityOrder (b.priority.getD .normal))
      (priorityOrder (a.priority.getD .normal)) with h | h | h
  · exact Or.inl (Or.inl h)
  · rcases le_total b.impact.confidenceScore a.impact.confidenceScore with hc | hc
    · exact Or.inl (Or.inr ⟨h, hc⟩)
    · exact Or.inr (Or.inr ⟨h.symm, hc⟩)
  · exact Or.inr (Or.inl h)

/-- `SuggestionEngine.generateSuggestions` (the service class): sort the
candidates by the comparator, return the first 5 (`.slice(0, 5)`). -/
def engineGenerateSuggestions (now : ℤ) (ctx : FinancialContext)
    (analytics : Option SpendingAnalytics) : List SuggestionInput :=
  ((engineCandidates now ctx analytics).mergeSort engineRankLe).take 5

/-- **C3, amended.**  The ranking and truncation the claim describes
live in `SuggestionEngine.generateSuggestions` (the service class), not
in the store's `generateSuggestions` cited by the claim: for every
context and analytics, the engine's result is sorted by priority
descending with confidence tie-break, and has at most 5 entries.  The
store's code path, by contrast, neither sorts nor truncates
(`c3_counterexample`). -/
theorem c3_amended (now : ℤ) (ctx : FinancialContext)
    (analytics : Option SpendingAnalytics) :
    (engineGenerateSuggestions now ctx analytics).length ≤ 5 ∧
    (engineGenerateSuggestions now ctx analytics).Pairwise (fun a b =>
      priorityOrder (b.priority.getD .normal) < priorityOrder (a.priority.getD .normal) ∨
        (priorityOrder (b.priority.getD .normal) = priorityOrder (a.priority.getD .normal) ∧
          b.impact.confidenceScore ≤ a.impact.confidenceScore)) := by
  constructor
  · exact List.length_take_le 5 _
  · have hs := @List.sorted_mergeSort SuggestionInput engineRankLe
      engineRankLe_trans engineRankLe_total (engineCandidates now ctx analytics)
    have ht := List.Pairwise.sublist (List.take_sublist 5 _) hs
    exact ht.imp fun h => (engineRankLe_iff _ _).1 h

/-! ## C5: achievement progress

`AchievementService.updateAchievementProgress(achievementId, increment)`
looks up the achievement by id (a no-op for unknown ids — updates to one
id do not touch the others), so it suffices to model the evolution of a
single achievement's `{progress, unlockedAt}` under a sequence of
increments. -/

/-- `progress` of an achievement; `percentage` is an integer because the
service rounds it. -/
structure AchievementProgress where
  current : ℚ
  target : ℚ
  percentage : ℤ
deriving DecidableEq, Repr

/-- The mutable slice of an `Achievement` record. -/
structure AchievementState where
  progress : AchievementProgress
  unlockedAt : Option ℤ
deriving DecidableEq, Repr

/-- One call of `updateAchievementProgress` (part of
`AchievementService`): `newCurrent = min(current + increment, target)`,
`newPercentage = round(newCurrent / target * 100)`, and the achievement
unlocks (`unlockedAt = now`) with an achievement notification — the
returned Bool — exactly when `newPercentage >= 100 && !unlockedAt`. -/
def updateAchievementProgress (now : ℤ) (a : AchievementState) (increment : ℚ) :
    AchievementState × Bool :=
  let newCurrent := min (a.progress.current + increment) a.progress.target
  let newPercentage := jsRound (newCurrent / a.progress.target * 100)
  let a' : AchievementState :=
    { progress := { current := newCurrent, target := a.progress.target
                    percentage := newPercentage }
      unlockedAt := a.unlockedAt }
  if 100 ≤ newPercentage ∧ a.unlockedAt = none then
    ({ a' with unlockedAt := some now }, true)
  else (a', false)

/-- Run a sequence of `updateAchievementProgress` calls; the second
component counts the unlock notifications emitted. -/
def runAch (now : ℤ) (a : AchievementState) : List ℚ → AchievementState × ℕ
  | [] => (a, 0)
  | d :: ds =>
      let r := updateAchievementProgress now a d
      let rest := runAch now r.1 ds
      (rest.1, (if r.2 then 1 else 0) + rest.2)

/-- The invariant every achievement of the service's fixed list
satisfies initially and `updateAchievementProgress` preserves. -/
def AchValid (a : AchievementState) : Prop :=
  0 ≤ a.progress.current ∧ a.progress.current ≤ a.progress.target ∧
  0 < a.progress.target ∧
  a.progress.percentage = jsRound (a.progress.current / a.progress.target * 100) ∧
  (a.unlockedAt = none ↔ a.progress.percentage < 100)

theorem jsRound_mono {p q : ℚ} (h : p ≤ q) : jsRound p ≤ jsRound q :=
  Int.floor_le_floor (by linarith)

theorem jsRound_le_100 {q : ℚ} (h : q ≤ 100) : jsRound q ≤ 100 := by
  calc jsRound q ≤ jsRound 100 := jsRound_mono h
    _ = 100 := by norm_num [jsRound]

theorem achValid_percentage_le (a : AchievementState) (hA : AchValid a) :
    a.progress.percentage ≤ 100 := by
  obtain ⟨h0, hct, hT, hpct, -⟩ := hA
  rw [hpct]
  apply jsRound_le_100
  have h1 : a.progress.current / a.progress.target ≤ 1 := (div_le_one hT).2 hct
  linarith

/-- Behaviour of a single `updateAchievementProgress` call on a valid
state with a nonnegative increment. -/
theorem updateAchievementProgress_spec (now : ℤ) (a : AchievementState) (d : ℚ)
    (hA : AchValid a) (hd : 0 ≤ d) :
    AchValid (updateAchievementProgress now a d).1 ∧
    a.progress.current ≤ (updateAchievementProgress now a d).1.progress.current ∧
    (updateAchievementProgress now a d).1.progress.target = a.progress.target ∧
    a.progress.percentage ≤ (updateAchievementProgress now a d).1.progress.percentage ∧
    ((updateAchievementProgress now a d).2 = true ↔
      (a.progress.percentage < 100 ∧
        100 ≤ (updateAchievementProgress now a d).1.progress.percentage)) ∧
    (∀ t : ℤ, a.unlockedAt = some t →
      (updateAchievementProgress now a d).1.unlockedAt = some t) := by
  obtain ⟨h0, hct, hT, hpct, hun⟩ := hA
  have hnc_lb : a.progress.current ≤ min (a.progress.current + d) a.progress.target :=
    le_min (by linarith) hct
  have hnc_ub : min (a.progress.current + d) a.progress.target ≤ a.progress.target :=
    min_le_right _ _
  have hnc0 : 0 ≤ min (a.progress.current + d) a.progress.target := le_trans h0 hnc_lb
  have hpmono : a.progress.percentage ≤
      jsRound (min (a.progress.current + d) a.progress.target / a.progress.target * 100) := by
    rw [hpct]
    apply jsRound_mono
    have hdiv : a.progress.current / a.progress.target ≤
        min (a.progress.current + d) a.progress.target / a.progress.target :=
      (div_le_div_iff_of_pos_right hT).2 hnc_lb
    linarith
  simp only [updateAchievementProgress]
  split_ifs with hfire
  · obtain ⟨hf1, hf2⟩ := hfire
    refine ⟨⟨hnc0, hnc_ub, hT, rfl, ?_⟩, hnc_lb, rfl, hpmono, ?_, ?_⟩
    · refine ⟨fun h => Option.noConfusion h, fun h => absurd h (not_lt.2 hf1)⟩
    · exact ⟨fun _ => ⟨hun.1 hf2, hf1⟩, fun _ => rfl⟩
    · intro t ht ; rw [hf2] at ht ; exact Option.noConfusion ht
  · refine ⟨⟨hnc0, hnc_ub, hT, rfl, ?_⟩, hnc_lb, rfl, hpmono, ?_, ?_⟩
    · cases hcase : a.unlockedAt with
      | none =>
          have hlt : ¬(100 ≤ jsRound (min (a.progress.current + d) a.progress.target /
              a.progress.target * 100)) := fun h => hfire ⟨h, hcase⟩
          exact ⟨fun _ => not_le.1 hlt, fun _ => rfl⟩
      | some t =>
          have h100 : 100 ≤ a.progress.percentage := by
            by_contra hlt
            push_neg at hlt
            rw [hun.2 hlt] at hcase
            exact Option.noConfusion hcase
          refine ⟨fun h => Option.noConfusion h, ?_⟩
          intro h
          exact absurd h (not_lt.2 (le_trans h100 hpmono))
    · refine ⟨fun h => by simp at h, ?_⟩
      rintro ⟨hlt, hge⟩
      exact absurd (⟨hge, hun.2 hlt⟩ :
        100 ≤ jsRound (min (a.progress.current + d) a.progress.target /
          a.progress.target * 100) ∧ a.unlockedAt = none) hfire
    · intro t ht ; exact ht

/-- `runAch` splits over list append, adding the emission counts. -/
theorem runAch_append (now : ℤ) (a : AchievementState) (l1 l2 : List ℚ) :
    runAch now a (l1 ++ l2) =
      ((runAch now (runAch now a l1).1 l2).1,
        (runAch now a l1).2 + (runAch now (runAch now a l1).1 l2).2) := by
  induction l1 generalizing a with
  | nil => simp [runAch]
  | cons d ds ih =>
      simp only [List.cons_append, runAch, List.append_eq]
      rw [ih ((updateAchievementProgress now a d).1), Nat.add_assoc]

/-- Behaviour of a whole run of `updateAchievementProgress` calls with
nonnegative increments from a valid state: validity is preserved,
`current` is monotone and bounded by the fixed target, `percentage` is
monotone, exactly one unlock notification is emitted iff the run
crosses the 100% mark, and `unlockedAt`, once set, is never changed. -/
theorem runAch_spec (now : ℤ) (a : AchievementState) (ds : List ℚ)
    (hA : AchValid a) (hds : ∀ d ∈ ds, 0 ≤ d) :
    AchValid (runAch now a ds).1 ∧
    a.progress.current ≤ (runAch now a ds).1.progress.current ∧
    (runAch now a ds).1.progress.target = a.progress.target ∧
    a.progress.percentage ≤ (runAch now a ds).1.progress.percentage ∧
    (runAch now a ds).2 =
      (if a.progress.percentage < 100 ∧ 100 ≤ (runAch now a ds).1.progress.percentage
        then 1 else 0) ∧
    (∀ t : ℤ, a.unlockedAt = some t → (runAch now a ds).1.unlockedAt = some t) := by
  induction ds generalizing a with
  | nil =>
      refine ⟨hA, le_refl _, rfl, le_refl _, ?_, fun t ht => ht⟩
      simp only [runAch]
      split_ifs with h
      · omega
      · rfl
  | cons d ds ih =>
      obtain ⟨hA1, hc1, hT1, hp1, he1, hu1⟩ :=
        updateAchievementProgress_spec now a d hA (hds d (List.mem_cons_self d ds))
      obtain ⟨hA2, hc2, hT2, hp2, he2, hu2⟩ :=
        ih (updateAchievementProgress now a d).1 hA1
          (fun x hx => hds x (List.mem_cons_of_mem d hx))
      refine ⟨hA2, le_trans hc1 hc2, hT2.trans hT1, le_trans hp1 hp2, ?_, ?_⟩
      · simp only [runAch]
        rw [he2]
        rcases hfe : (updateAchievementProgress now a d).2 with _ | _ <;>
          rw [hfe] at he1 <;>
          simp only [Bool.false_eq_true, if_false, eq_self_iff_true, if_true, zero_add]
        · -- no emission in the first step
          have hno : ¬(a.progress.percentage < 100 ∧
              100 ≤ (updateAchievementProgress now a d).1.progress.percentage) :=
            fun h => Bool.noConfusion (he1.2 h)
          by_cases hstart : a.progress.percentage < 100
          · have hmid : (updateAchievementProgress now a d).1.progress.percentage < 100 := by
              by_contra hge
              push_neg at hge
              exact hno ⟨hstart, hge⟩
            by_cases hfin : 100 ≤
                (runAch now (updateAchievementProgress now a d).1 ds).1.progress.percentage
            · rw [if_pos ⟨hmid, hfin⟩, if_pos ⟨hstart, hfin⟩]
            · rw [if_neg (fun h => hfin h.2), if_neg (fun h => hfin h.2)]
          · have hstart2 : 100 ≤ a.progress.percentage := not_lt.1 hstart
            have hmid : 100 ≤ (updateAchievementProgress now a d).1.progress.percentage :=
              le_trans hstart2 hp1
            rw [if_neg (fun h => absurd h.1 (not_lt.2 hmid)), if_neg (fun h => hstart h.1)]
        · -- the first step emitted: the run crossed 100 at this call
          obtain ⟨hstart, hmid⟩ := he1.1 rfl
          have hfin : 100 ≤
              (runAch now (updateAchievementProgress now a d).1 ds).1.progress.percentage :=
            le_trans hmid hp2
          rw [if_neg (fun h => absurd hmid (not_le.2 h.1)), if_pos ⟨hstart, hfin⟩]
      · intro t ht
        exact hu2 t (hu1 t ht)

/-- The initial state of an achievement of the service's fixed list:
`current = 0`, `percentage = 0`, locked.  The list's targets are
7, 30, 30, 100, 14, 10000, 1000, 10 and 100. -/
def initialAchievement (target : ℚ) : AchievementState :=
  { progress := { current := 0, target := target, percentage := 0 }
    unlockedAt := none }

theorem initialAchievement_valid (T : ℚ) (hT : 0 < T) :
    AchValid (initialAchievement T) := by
  refine ⟨le_refl 0, le_of_lt hT, hT, ?_, by simp [initialAchievement]⟩
  show (0 : ℤ) = jsRound (0 / T * 100)
  norm_num [jsRound]

/-- **C5, counterexample.**  The claim quantifies over *every* sequence
of `updateAchievementProgress` calls, but the increment may be
negative, and then `current = min(current + increment, target)`
*decreases*: starting from the savings-streak-30 achievement
(target 30), the calls `+5` then `−3` take `current` from 5 down to 2. -/
theorem c5_counterexample :
    (runAch 0 (initialAchievement 30) [5]).1.progress.current = 5 ∧
    (runAch 0 (initialAchievement 30) [5, -3]).1.progress.current = 2 ∧
    (2 : ℚ) < 5 := by
  have h1 : updateAchievementProgress 0 (initialAchievement 30) 5 =
      ({ progress := { current := 5, target := 30, percentage := 17 }
         unlockedAt := none }, false) := by
    norm_num [updateAchievementProgress, initialAchievement, jsRound, min_def]
  have h2 : updateAchievementProgress 0
      ({ progress := { current := 5, target := 30, percentage := 17 }
         unlockedAt := none } : AchievementState) (-3) =
      ({ progress := { current := 2, target := 30, percentage := 7 }
         unlockedAt := none }, false) := by
    norm_num [updateAchievementProgress, jsRound, min_def]
  refine ⟨?_, ?_, by norm_num⟩
  · simp [runAch, h1]
  · simp [runAch, h1, h2]

/-- **C5, amended.**  For every achievement in a valid initial state and
every sequence of calls with *nonnegative* increments (every call the
service actually makes passes a count, a length or a balance, all
nonnegative), split arbitrarily as `l1 ++ l2`: `progress.current` is
non-decreasing across calls and never exceeds `target`;
`progress.percentage` always equals `round(100·current/target)` and
never exceeds 100; and exactly one unlock notification is emitted over
any window iff the percentage crosses 100 inside it — so the unlock
happens exactly on the first call where the percentage reaches 100,
never again, and `unlockedAt` stays set. -/
theorem c5_amended (now : ℤ) (a0 : AchievementState) (l1 l2 : List ℚ)
    (hA : AchValid a0) (hds : ∀ d ∈ l1 ++ l2, 0 ≤ d) :
    a0.progress.current ≤ (runAch now a0 l1).1.progress.current ∧
    (runAch now a0 l1).1.progress.current ≤
      (runAch now a0 (l1 ++ l2)).1.progress.current ∧
    (runAch now a0 (l1 ++ l2)).1.progress.current ≤ a0.progress.target ∧
    (runAch now a0 (l1 ++ l2)).1.progress.percentage =
      jsRound ((runAch now a0 (l1 ++ l2)).1.progress.current / a0.progress.target * 100) ∧
    (runAch now a0 (l1 ++ l2)).1.progress.percentage ≤ 100 ∧
    (runAch now a0 l1).2 =
      (if a0.progress.percentage < 100 ∧ 100 ≤ (runAch now a0 l1).1.progress.percentage
        then 1 else 0) ∧
    (runAch now a0 (l1 ++ l2)).2 =
      (if a0.progress.percentage < 100 ∧ 100 ≤ (runAch now a0 (l1 ++ l2)).1.progress.percentage
        then 1 else 0) ∧
    ((runAch now a0 (l1 ++ l2)).1.unlockedAt = none ↔
      (runAch now a0 (l1 ++ l2)).1.progress.percentage < 100) := by
  have hds1 : ∀ d ∈ l1, 0 ≤ d := fun d hd => hds d (List.mem_append_left l2 hd)
  have hds2 : ∀ d ∈ l2, 0 ≤ d := fun d hd => hds d (List.mem_append_right l1 hd)
  obtain ⟨hV1, hc1, hT1, hp1, hk1, hu1⟩ := runAch_spec now a0 l1 hA hds1
  obtain ⟨hVf, hcf, hTf, hpf, hkf, huf⟩ := runAch_spec now a0 (l1 ++ l2) hA hds
  obtain ⟨hV2, hc2, hT2, hp2, hk2, hu2⟩ :=
    runAch_spec now (runAch now a0 l1).1 l2 hV1 hds2
  have happ1 : (runAch now a0 (l1 ++ l2)).1 = (runAch now (runAch now a0 l1).1 l2).1 := by
    rw [runAch_append now a0 l1 l2]
  refine ⟨hc1, ?_, ?_, ?_, ?_, hk1, hkf, hVf.2.2.2.2⟩
  · rw [happ1] ; exact hc2
  · exact hTf ▸ hVf.2.1
  · exact hTf ▸ hVf.2.2.2.1
  · exact achValid_percentage_le _ hVf

/-- Witness for C5 (amended): the savings-streak-7 achievement
(target 7), increments 3 then 4; the unlock fires on the second call. -/
theorem c5_amended_witness :
    (initialAchievement 7).progress.current ≤
      (runAch 0 (initialAchievement 7) [3]).1.progress.current ∧
    (runAch 0 (initialAchievement 7) [3]).1.progress.current ≤
      (runAch 0 (initialAchievement 7) ([3] ++ [4])).1.progress.current ∧
    (runAch 0 (initialAchievement 7) ([3] ++ [4])).1.progress.current ≤
      (initialAchievement 7).progress.target ∧
    (runAch 0 (initialAchievement 7) ([3] ++ [4])).1.progress.percentage =
      jsRound ((runAch 0 (initialAchievement 7) ([3] ++ [4])).1.progress.current /
        (initialAchievement 7).progress.target * 100) ∧
    (runAch 0 (initialAchievement 7) ([3] ++ [4])).1.progress.percentage ≤ 100 ∧
    (runAch 0 (initialAchievement 7) [3]).2 =
      (if (initialAchievement 7).progress.percentage < 100 ∧
          100 ≤ (runAch 0 (initialAchievement 7) [3]).1.progress.percentage
        then 1 else 0) ∧
    (runAch 0 (initialAchievement 7) ([3] ++ [4])).2 =
      (if (initialAchievement 7).progress.percentage < 100 ∧
          100 ≤ (runAch 0 (initialAchievement 7) ([3] ++ [4])).1.progress.percentage
        then 1 else 0) ∧
    ((runAch 0 (initialAchievement 7) ([3] ++ [4])).1.unlockedAt = none ↔
      (runAch 0 (initialAchievement 7) ([3] ++ [4])).1.progress.percentage < 100) :=
  c5_amended 0 (initialAchievement 7) [3] [4]
    (initialAchievement_valid 7 (by norm_num))
    (by decide)

/-! ## Notification store (C9 and C10)

`useNotificationStore` from `src/stores/notificationStore.ts`.  Local
times of day (`"HH:MM"` strings compared with JS string comparison,
which on zero-padded time strings coincides with chronological order)
are modelled as minutes since midnight. -/

/-- `NotificationType` enum (`src/types/enums.ts`). -/
inductive NotificationType where
  | fuelLow
  | fuelEmpty
  | bigSpend
  | achievement
  | salaryReceived
  | billDue
  | suggestion
  | dailyReminder
deriving DecidableEq, Repr

structure QuietHours where
  enabled : Bool
  startTime : ℕ
  endTime : ℕ
deriving DecidableEq, Repr

structure NotificationSettings where
  fuelAlerts : Bool
  bigSpendAlerts : Bool
  achievementAlerts : Bool
  billReminders : Bool
  dailyReminders : Bool
  quietHours : QuietHours
  soundEnabled : Bool
  vibrationEnabled : Bool
deriving DecidableEq, Repr

/-- `defaultSettings` (all alerts on, quiet hours 22:00-08:00 disabled). -/
def defaultSettings : NotificationSettings :=
  { fuelAlerts := true, bigSpendAlerts := true, achievementAlerts := true
    billReminders := true, dailyReminders := true
    quietHours := { enabled := false, startTime := 22 * 60, endTime := 8 * 60 }
    soundEnabled := true, vibrationEnabled := true }

/-- The category-toggle switch of `addNotification`: fuel types gate on
`fuelAlerts`, big spends on `bigSpendAlerts`, achievements on
`achievementAlerts`, bills on `billReminders`, daily reminders on
`dailyReminders`; every other type defaults to enabled. -/
def isTypeEnabled (settings : NotificationSettings) : NotificationType → Bool
  | .fuelLow => settings.fuelAlerts
  | .fuelEmpty => settings.fuelAlerts
  | .bigSpend => settings.bigSpendAlerts
  | .achievement => settings.achievementAlerts
  | .billDue => settings.billReminders
  | .dailyReminder => settings.dailyReminders
  | .salaryReceived => true
  | .suggestion => true

/-- A stored notification record. -/
structure AppNotification where
  id : String
  type : NotificationType
  title : String
  message : String
  priority : NotificationPriority
  isRead : Bool
  createdAt : ℤ
deriving DecidableEq, Repr

/-- `NotificationInput`: `priority` is optional and defaults to normal
when the record is created, but the quiet-hours check compares the raw
input priority against urgent. -/
structure NotificationInput where
  type : NotificationType
  title : String
  message : String
  priority : Option NotificationPriority
deriving DecidableEq, Repr

/-- The notification store state; `unreadCount` is an integer (a JS
number) so that its nonnegativity is a fact to prove, not a typing
artifact. -/
structure NotifState where
  notifications : List AppNotification
  settings : NotificationSettings
  unreadCount : ℤ
deriving DecidableEq, Repr

def initialNotifState : NotifState :=
  { notifications := [], settings := defaultSettings, unreadCount := 0 }

/-- The quiet-hours window check of `addNotification`:
`start < end` means the plain interval (inclusive on both ends),
otherwise the midnight-spanning wraparound `time ≥ start || time ≤ end`. -/
def isInQuietHours (currentTime startTime endTime : ℕ) : Bool :=
  if startTime < endTime then
    decide (startTime ≤ currentTime) && decide (currentTime ≤ endTime)
  else
    decide (startTime ≤ currentTime) || decide (currentTime ≤ endTime)

/-- `addNotification` (lines 83-161 of the store): drop the input if its
category toggle is off; drop it if quiet hours are enabled, the current
local time is inside the window and the input priority is not urgent;
otherwise prepend the new unread record and increment `unreadCount`.
`nowTod` is the current local time of day in minutes, `nowMs` the
timestamp, `newId` the generated id. -/
def addNotification (inp : NotificationInput) (nowTod : ℕ) (nowMs : ℤ)
    (newId : String) (st : NotifState) : NotifState :=
  if !(isTypeEnabled st.settings inp.type) then st
  else if st.settings.quietHours.enabled &&
      isInQuietHours nowTod st.settings.quietHours.startTime st.settings.quietHours.endTime &&
      !(inp.priority = some .urgent) then st
  else
    let n : AppNotification :=
      { id := newId, type := inp.type, title := inp.title, message := inp.message
        priority := inp.priority.getD .normal, isRead := false, createdAt := nowMs }
    { st with notifications := n :: st.notifications
              unreadCount := st.unreadCount + 1 }

/-- `markAsRead`: a no-op when the id is unknown or the found
notification is already read; otherwise mark it read and decrement the
count (clamped at 0). -/
def markAsRead (id : String) (st : NotifState) : NotifState :=
  match st.notifications.find? fun n => n.id = id with
  | none => st
  | some n =>
      if n.isRead then st
      else
        { st with
          notifications := st.notifications.map fun m =>
            if m.id = id then { m with isRead := true } else m
          unreadCount := max 0 (st.unreadCount - 1) }

/-- `markAllAsRead`. -/
def markAllAsRead (st : NotifState) : NotifState :=
  { st with notifications := st.notifications.map fun n => { n with isRead := true }
            unreadCount := 0 }

/-- `deleteNotification`: remove the record; decrement the count
(clamped at 0) iff the deleted record was unread. -/
def deleteNotification (id : String) (st : NotifState) : NotifState :=
  let found := st.notifications.find? fun n => n.id = id
  let wasUnread := match found with
    | some n => !n.isRead
    | none => false
  { st with notifications := st.notifications.filter fun n => !(n.id = id)
            unreadCount := if wasUnread then max 0 (st.unreadCount - 1) else st.unreadCount }

/-- `clearAllNotifications`. -/
def clearAllNotifications (st : NotifState) : NotifState :=
  { st with notifications := [], unreadCount := 0 }

/-! ### C9: quiet-hours suppression -/

/-- **C9.**  With quiet hours enabled and the current time inside the
window — `[start, end]` when `start < end`, the midnight-spanning
wraparound when `end < start` — `addNotification` suppresses every
non-urgent input (state unchanged: no record, no count change), while
an urgent input whose category toggle is on is recorded and increments
the unread count. -/
theorem addNotification_quiet_hours (inp : NotificationInput) (nowTod : ℕ) (nowMs : ℤ)
    (newId : String) (st : NotifState)
    (henabled : st.settings.quietHours.enabled = true)
    (hwindow :
      (st.settings.quietHours.startTime < st.settings.quietHours.endTime ∧
        st.settings.quietHours.startTime ≤ nowTod ∧
        nowTod ≤ st.settings.quietHours.endTime) ∨
      (st.settings.quietHours.endTime < st.settings.quietHours.startTime ∧
        (st.settings.quietHours.startTime ≤ nowTod ∨
          nowTod ≤ st.settings.quietHours.endTime))) :
    (inp.priority ≠ some NotificationPriority.urgent →
      addNotification inp nowTod nowMs newId st = st) ∧
    (inp.priority = some NotificationPriority.urgent →
      isTypeEnabled st.settings inp.type = true →
      (addNotification inp nowTod nowMs newId st).notifications =
        ({ id := newId, type := inp.type, title := inp.title, message := inp.message
           priority := NotificationPriority.urgent, isRead := false, createdAt := nowMs } :
          AppNotification) :: st.notifications ∧
      (addNotification inp nowTod nowMs newId st).unreadCount = st.unreadCount + 1) := by
  have hq : isInQuietHours nowTod st.settings.quietHours.startTime
      st.settings.quietHours.endTime = true := by
    rw [isInQuietHours]
    rcases hwindow with ⟨hlt, h1, h2⟩ | ⟨hgt, hor⟩
    · rw [if_pos hlt]
      simp [h1, h2]
    · rw [if_neg (by omega)]
      rcases hor with h | h <;> simp [h]
  constructor
  · intro hp
    rw [addNotification]
    by_cases htype : isTypeEnabled st.settings inp.type
    · rw [if_neg (by simp [htype]), if_pos (by simp [henabled, hq, hp])]
    · rw [if_pos (by simp [htype])]
  · intro hp htype
    rw [addNotification, if_neg (by simp [htype]), if_neg (by simp [hp])]
    exact ⟨by simp [hp], rfl⟩

/-- Witness for C9: default settings with quiet hours enabled
(22:00-08:00, wraparound) at 23:00; a normal fuel alert is suppressed,
an urgent one of the same shape is recorded. -/
theorem addNotification_quiet_hours_witness :
    (({ type := NotificationType.fuelLow, title := "Low Fuel", message := "low"
        priority := some NotificationPriority.normal } : NotificationInput).priority ≠
          some NotificationPriority.urgent →
      addNotification
        { type := NotificationType.fuelLow, title := "Low Fuel", message := "low"
          priority := some NotificationPriority.normal } (23 * 60) 0 "n1"
        { initialNotifState with
          settings := { defaultSettings with
            quietHours := { enabled := true, startTime := 22 * 60, endTime := 8 * 60 } } } =
      { initialNotifState with
        settings := { defaultSettings with
          quietHours := { enabled := true, startTime := 22 * 60, endTime := 8 * 60 } } }) ∧
    (({ type := NotificationType.fuelLow, title := "Low Fuel", message := "low"
        priority := some NotificationPriority.normal } : NotificationInput).priority =
          some NotificationPriority.urgent →
      isTypeEnabled
        ({ initialNotifState with
          settings := { defaultSettings with
            quietHours := { enabled := true, startTime := 22 * 60, endTime := 8 * 60 } } } :
            NotifState).settings
        ({ type := NotificationType.fuelLow, title := "Low Fuel", message := "low"
           priority := some NotificationPriority.normal } : NotificationInput).type = true →
      (addNotification
        { type := NotificationType.fuelLow, title := "Low Fuel", message := "low"
          priority := some NotificationPriority.normal } (23 * 60) 0 "n1"
        { initialNotifState with
          settings := { defaultSettings with
            quietHours := { enabled := true, startTime := 22 * 60, endTime := 8 * 60 } } }).notifications =
        ({ id := "n1", type := NotificationType.fuelLow, title := "Low Fuel", message := "low"
           priority := NotificationPriority.urgent, isRead := false, createdAt := 0 } :
          AppNotification) ::
          ({ initialNotifState with
            settings := { defaultSettings with
              quietHours := { enabled := true, startTime := 22 * 60, endTime := 8 * 60 } } } :
              NotifState).notifications ∧
      (addNotification
        { type := NotificationType.fuelLow, title := "Low Fuel", message := "low"
          priority := some NotificationPriority.normal } (23 * 60) 0 "n1"
        { initialNotifState with
          settings := { defaultSettings with
            quietHours := { enabled := true, startTime := 22 * 60, endTime := 8 * 60 } } }).unreadCount =
        ({ initialNotifState with
          settings := { defaultSettings with
            quietHours := { enabled := true, startTime := 22 * 60, endTime := 8 * 60 } } } :
            NotifState).unreadCount + 1) :=
  addNotification_quiet_hours
    { type := NotificationType.fuelLow, title := "Low Fuel", message := "low"
      priority := some NotificationPriority.normal } (23 * 60) 0 "n1"
    { initialNotifState with
      settings := { defaultSettings with
        quietHours := { enabled := true, startTime := 22 * 60, endTime := 8 * 60 } } }
    (by rfl)
    (by decide)

/-! ### C10: the unread-count invariant -/

/-- Number of stored notifications with `isRead = false`, as an integer
so that it compares with `unreadCount`. -/
def countUnread (l : List AppNotification) : ℤ :=
  ((l.filter fun n => !n.isRead).length : ℤ)

theorem countUnread_nonneg (l : List AppNotification) : 0 ≤ countUnread l :=
  Int.natCast_nonneg _

theorem countUnread_cons (a : AppNotification) (l : List AppNotification) :
    countUnread (a :: l) = (if a.isRead then 0 else 1) + countUnread l := by
  cases h : a.isRead <;> simp [countUnread, List.filter_cons, h, add_comm]

/-- `generateId()` produces a process-unique string per created record;
it is modelled as a string determined by a fresh counter value. -/
def genNotifId (k : ℕ) : String := String.mk (List.replicate k 'x')

theorem genNotifId_inj : Function.Injective genNotifId := by
  intro a b h
  have h2 : (List.replicate a 'x').length = (List.replicate b 'x').length := by
    have h3 := congrArg String.length h
    simpa [genNotifId, String.length] using h3
  simpa using h2

/-- The public operations of the notification store that C10 ranges
over.  An `add` carries the input, the local time of day and the
timestamp at which it runs; the id comes from the fresh-id counter. -/
inductive NotifOp where
  | add (inp : NotificationInput) (nowTod : ℕ) (nowMs : ℤ)
  | markRead (id : String)
  | markAllRead
  | deleteOne (id : String)
  | clearAll

def applyNotifOp (k : ℕ) (st : NotifState) : NotifOp → NotifState
  | .add inp nowTod nowMs => addNotification inp nowTod nowMs (genNotifId k) st
  | .markRead id => markAsRead id st
  | .markAllRead => markAllAsRead st
  | .deleteOne id => deleteNotification id st
  | .clearAll => clearAllNotifications st

/-- Run a sequence of store operations, threading the fresh-id counter. -/
def runNotifOpsFrom (k : ℕ) (st : NotifState) : List NotifOp → NotifState
  | [] => st
  | op :: ops => runNotifOpsFrom (k + 1) (applyNotifOp k st op) ops

/-- Run a sequence of operations from the initial empty store state. -/
def runNotifOps (ops : List NotifOp) : NotifState :=
  runNotifOpsFrom 0 initialNotifState ops

/-- Invariant: the unread count matches the stored records, ids are
pairwise distinct, and every stored id was minted below the counter. -/
def NotifInv (k : ℕ) (st : NotifState) : Prop :=
  st.unreadCount = countUnread st.notifications ∧
  (st.notifications.map AppNotification.id).Nodup ∧
  ∀ n ∈ st.notifications, ∃ j, j < k ∧ n.id = genNotifId j

theorem notifInv_mono {k k' : ℕ} (h : k ≤ k') {st : NotifState}
    (hinv : NotifInv k st) : NotifInv k' st := by
  obtain ⟨h1, h2, h3⟩ := hinv
  refine ⟨h1, h2, fun n hn => ?_⟩
  obtain ⟨j, hj, hje⟩ := h3 n hn
  exact ⟨j, lt_of_lt_of_le hj h, hje⟩

/-- Marking matching records read does not change the stored ids. -/
theorem setRead_ids (id : String) (l : List AppNotification) :
    ((l.map fun m => if m.id = id then { m with isRead := true } else m).map
      AppNotification.id) = l.map AppNotification.id := by
  rw [List.map_map]
  apply List.map_congr_left
  intro m _
  by_cases h : m.id = id <;> simp [h]

theorem markAllRead_ids (l : List AppNotification) :
    ((l.map fun m => { m with isRead := true }).map AppNotification.id) =
      l.map AppNotification.id := by
  rw [List.map_map] ; rfl

/-- With pairwise distinct ids, marking the found unread record read
decrements the unread population by exactly one. -/
theorem countUnread_setRead (id : String) :
    ∀ l : List AppNotification, (l.map AppNotification.id).Nodup →
      ∀ n, l.find? (fun m => m.id = id) = some n → n.isRead = false →
        countUnread (l.map fun m => if m.id = id then { m with isRead := true } else m) + 1 =
          countUnread l := by
  intro l
  induction l with
  | nil => intro _ n hfind ; simp at hfind
  | cons a l ih =>
      intro hnd n hfind hunread
      rw [List.map_cons, List.nodup_cons] at hnd
      obtain ⟨hnotin, hnd'⟩ := hnd
      by_cases hid : a.id = id
      · rw [List.find?_cons_of_pos _ (by simp [hid])] at hfind
        injection hfind with hfind
        subst hfind
        have htail : (l.map fun m => if m.id = id then { m with isRead := true } else m) = l := by
          have hpt : ∀ m ∈ l, (if m.id = id then { m with isRead := true } else m) = m := by
            intro m hm
            rw [if_neg]
            intro hmid
            exact hnotin (hid ▸ hmid ▸ List.mem_map_of_mem AppNotification.id hm)
          calc (l.map fun m => if m.id = id then { m with isRead := true } else m)
              = l.map (fun m => m) := List.map_congr_left hpt
            _ = l := List.map_id' l
        rw [List.map_cons, if_pos hid, htail, countUnread_cons, countUnread_cons, hunread]
        simp
        omega
      · rw [List.find?_cons_of_neg _ (by simp [hid])] at hfind
        have hrec := ih hnd' n hfind hunread
        rw [List.map_cons, if_neg hid, countUnread_cons, countUnread_cons]
        omega

/-- With pairwise distinct ids, deleting the found unread record
decrements the unread population by exactly one. -/
theorem countUnread_deleteUnread (id : String) :
    ∀ l : List AppNotification, (l.map AppNotification.id).Nodup →
      ∀ n, l.find? (fun m => m.id = id) = some n → n.isRead = false →
        countUnread (l.filter fun m => !(m.id = id)) + 1 = countUnread l := by
  intro l
  induction l with
  | nil => intro _ n hfind ; simp at hfind
  | cons a l ih =>
      intro hnd n hfind hunread
      rw [List.map_cons, List.nodup_cons] at hnd
      obtain ⟨hnotin, hnd'⟩ := hnd
      by_cases hid : a.id = id
      · rw [List.find?_cons_of_pos _ (by simp [hid])] at hfind
        injection hfind with hfind
        subst hfind
        have htail : (l.filter fun m => !(m.id = id)) = l := by
          apply List.filter_eq_self.2
          intro m hm
          simp only [Bool.not_eq_eq_eq_not, Bool.not_true, decide_eq_false_iff_not]
          intro hmid
          exact hnotin (hid ▸ hmid ▸ List.mem_map_of_mem AppNotification.id hm)
        rw [List.filter_cons, if_neg (by simp [hid]), htail, countUnread_cons, hunread]
        simp
        omega
      · rw [List.find?_cons_of_neg _ (by simp [hid])] at hfind
        have hrec := ih hnd' n hfind hunread
        rw [List.filter_cons, if_pos (by simp [hid]), countUnread_cons, countUnread_cons]
        omega

/-- With pairwise distinct ids, deleting the found *read* record leaves
the unread population unchanged. -/
theorem countUnread_deleteRead (id : String) :
    ∀ l : List AppNotification, (l.map AppNotification.id).Nodup →
      ∀ n, l.find? (fun m => m.id = id) = some n → n.isRead = true →
        countUnread (l.filter fun m => !(m.id = id)) = countUnread l := by
  intro l
  induction l with
  | nil => intro _ n hfind ; simp at hfind
  | cons a l ih =>
      intro hnd n hfind hread
      rw [List.map_cons, List.nodup_cons] at hnd
      obtain ⟨hnotin, hnd'⟩ := hnd
      by_cases hid : a.id = id
      · rw [List.find?_cons_of_pos _ (by simp [hid])] at hfind
        injection hfind with hfind
        subst hfind
        have htail : (l.filter fun m => !(m.id = id)) = l := by
          apply List.filter_eq_self.2
          intro m hm
          simp only [Bool.not_eq_eq_eq_not, Bool.not_true, decide_eq_false_iff_not]
          intro hmid
          exact hnotin (hid ▸ hmid ▸ List.mem_map_of_mem AppNotification.id hm)
        rw [List.filter_cons, if_neg (by simp [hid]), htail, countUnread_cons, hread]
        simp
      · rw [List.find?_cons_of_neg _ (by simp [hid])] at hfind
        have hrec := ih hnd' n hfind hread
        rw [List.filter_cons, if_pos (by simp [hid]), countUnread_cons, countUnread_cons]
        omega

/-- Deleting an id that is not stored leaves the list unchanged. -/
theorem filter_out_of_find?_none (id : String) (l : List AppNotification)
    (hfind : l.find? (fun m => m.id = id) = none) :
    (l.filter fun m => !(m.id = id)) = l := by
  apply List.filter_eq_self.2
  intro m hm
  have := List.find?_eq_none.1 hfind m hm
  simpa using this

theorem addNotification_inv {k : ℕ} {st : NotifState}
    (h : NotifInv k st) (inp : NotificationInput) (nowTod : ℕ) (nowMs : ℤ) :
    NotifInv (k + 1) (addNotification inp nowTod nowMs (genNotifId k) st) := by
  obtain ⟨h1, h2, h3⟩ := h
  rw [addNotification]
  split_ifs with hc1 hc2
  · exact notifInv_mono (Nat.le_succ k) ⟨h1, h2, h3⟩
  · exact notifInv_mono (Nat.le_succ k) ⟨h1, h2, h3⟩
  · refine ⟨?_, ?_, ?_⟩
    · show st.unreadCount + 1 =
        countUnread ({ id := genNotifId k, type := inp.type, title := inp.title
                       message := inp.message, priority := inp.priority.getD .normal
                       isRead := false, createdAt := nowMs } :: st.notifications)
      rw [countUnread_cons, h1]
      simp [add_comm]
    · rw [List.map_cons, List.nodup_cons]
      refine ⟨?_, h2⟩
      intro hmem
      rcases List.mem_map.1 hmem with ⟨m, hm, hidm⟩
      obtain ⟨j, hj, hje⟩ := h3 m hm
      rw [hje] at hidm
      have := genNotifId_inj hidm
      omega
    · intro n hn
      rcases List.mem_cons.1 hn with rfl | hn'
      · exact ⟨k, Nat.lt_succ_self k, rfl⟩
      · obtain ⟨j, hj, hje⟩ := h3 n hn'
        exact ⟨j, Nat.lt_succ_of_lt hj, hje⟩

theorem markAsRead_inv {k : ℕ} {st : NotifState}
    (h : NotifInv k st) (id : String) : NotifInv k (markAsRead id st) := by
  obtain ⟨h1, h2, h3⟩ := h
  rw [markAsRead]
  cases hf : st.notifications.find? (fun m => m.id = id) with
  | none => exact ⟨h1, h2, h3⟩
  | some n =>
      dsimp only
      by_cases hr : n.isRead
      · rw [if_pos hr]
        exact ⟨h1, h2, h3⟩
      · rw [if_neg hr]
        have heq := countUnread_setRead id st.notifications h2 n hf (Bool.eq_false_iff.2 hr)
        have hge := countUnread_nonneg
          (st.notifications.map fun m => if m.id = id then { m with isRead := true } else m)
        refine ⟨?_, ?_, ?_⟩
        · show max 0 (st.unreadCount - 1) =
            countUnread (st.notifications.map fun m =>
              if m.id = id then { m with isRead := true } else m)
          rw [h1]
          omega
        · show ((st.notifications.map fun m =>
            if m.id = id then { m with isRead := true } else m).map
              AppNotification.id).Nodup
          rw [setRead_ids] ; exact h2
        · intro m hm
          rcases List.mem_map.1 hm with ⟨m0, hm0, rfl⟩
          obtain ⟨j, hj, hje⟩ := h3 m0 hm0
          refine ⟨j, hj, ?_⟩
          have hidm : ((if m0.id = id then { m0 with isRead := true } else m0) :
              AppNotification).id = m0.id := by
            by_cases hc : m0.id = id
            · rw [if_pos hc]
            · rw [if_neg hc]
          rw [hidm]
          exact hje

theorem markAllAsRead_inv {k : ℕ} {st : NotifState}
    (h : NotifInv k st) : NotifInv k (markAllAsRead st) := by
  obtain ⟨h1, h2, h3⟩ := h
  refine ⟨?_, ?_, ?_⟩
  · show (0 : ℤ) = countUnread _
    rw [countUnread]
    rw [List.filter_eq_nil_iff.2]
    · rfl
    · intro m hm
      rcases List.mem_map.1 hm with ⟨m0, _, rfl⟩
      simp
  · show ((st.notifications.map fun m => { m with isRead := true }).map
      AppNotification.id).Nodup
    rw [markAllRead_ids] ; exact h2
  · intro m hm
    rcases List.mem_map.1 hm with ⟨m0, hm0, rfl⟩
    obtain ⟨j, hj, hje⟩ := h3 m0 hm0
    exact ⟨j, hj, hje⟩

theorem deleteNotification_inv {k : ℕ} {st : NotifState}
    (h : NotifInv k st) (id : String) : NotifInv k (deleteNotification id st) := by
  obtain ⟨h1, h2, h3⟩ := h
  have hids : ∀ m ∈ st.notifications.filter (fun m => !(m.id = id)), ∃ j, j < k ∧
      m.id = genNotifId j := fun m hm => h3 m (List.mem_of_mem_filter hm)
  have hnd : ((st.notifications.filter fun m => !(m.id = id)).map AppNotification.id).Nodup :=
    List.Nodup.sublist (List.Sublist.map AppNotification.id (List.filter_sublist _)) h2
  rw [deleteNotification]
  cases hf : st.notifications.find? (fun m => m.id = id) with
  | none =>
      dsimp only
      refine ⟨?_, hnd, hids⟩
      show st.unreadCount = countUnread (st.notifications.filter fun m => !(m.id = id))
      rw [filter_out_of_find?_none id st.notifications hf]
      exact h1
  | some n =>
      dsimp only
      by_cases hr : n.isRead
      · refine ⟨?_, hnd, hids⟩
        show (if !n.isRead then max 0 (st.unreadCount - 1) else st.unreadCount) =
          countUnread (st.notifications.filter fun m => !(m.id = id))
        rw [hr]
        show st.unreadCount = countUnread (st.notifications.filter fun m => !(m.id = id))
        rw [countUnread_deleteRead id st.notifications h2 n hf hr]
        exact h1
      · refine ⟨?_, hnd, hids⟩
        have hnr : n.isRead = false := Bool.eq_false_iff.2 hr
        have heq := countUnread_deleteUnread id st.notifications h2 n hf hnr
        have hge := countUnread_nonneg (st.notifications.filter fun m => !(m.id = id))
        show (if !n.isRead then max 0 (st.unreadCount - 1) else st.unreadCount) =
          countUnread (st.notifications.filter fun m => !(m.id = id))
        rw [hnr]
        show max 0 (st.unreadCount - 1) =
          countUnread (st.notifications.filter fun m => !(m.id = id))
        rw [h1]
        omega

theorem clearAllNotifications_inv {k : ℕ} {st : NotifState}
    (_h : NotifInv k st) : NotifInv k (clearAllNotifications st) := by
  refine ⟨rfl, List.nodup_nil, ?_⟩
  intro n hn
  exact absurd hn (List.not_mem_nil n)

theorem applyNotifOp_inv {k : ℕ} {st : NotifState}
    (h : NotifInv k st) (op : NotifOp) : NotifInv (k + 1) (applyNotifOp k st op) := by
  cases op with
  | add inp nowTod nowMs => exact addNotification_inv h inp nowTod nowMs
  | markRead id => exact notifInv_mono (Nat.le_succ k) (markAsRead_inv h id)
  | markAllRead => exact notifInv_mono (Nat.le_succ k) (markAllAsRead_inv h)
  | deleteOne id => exact notifInv_mono (Nat.le_succ k) (deleteNotification_inv h id)
  | clearAll => exact notifInv_mono (Nat.le_succ k) (clearAllNotifications_inv h)

theorem runNotifOpsFrom_inv (ops : List NotifOp) :
    ∀ (k : ℕ) (st : NotifState), NotifInv k st →
      NotifInv (k + ops.length) (runNotifOpsFrom k st ops) := by
  induction ops with
  | nil => intro k st h ; simpa [runNotifOpsFrom] using h
  | cons op ops ih =>
      intro k st h
      rw [runNotifOpsFrom]
      have h2 := ih (k + 1) (applyNotifOp k st op) (applyNotifOp_inv h op)
      have harith : k + 1 + ops.length = k + (op :: ops).length := by
        simp [List.length_cons] ; omega
      rw [harith] at h2
      exact h2

/-- **C10.**  Starting from the initial empty notification state, after
any sequence of `addNotification`, `markAsRead`, `markAllAsRead`,
`deleteNotification` and `clearAllNotifications` operations,
`unreadCount` equals the number of stored notifications with
`isRead = false` and in particular is never negative; and `markAsRead`
on an already-read or unknown id leaves the state (notification list
and count) unchanged. -/
theorem c10_unreadCount_invariant (ops : List NotifOp) (st : NotifState) (id : String)
    (hnoop : ∀ n, st.notifications.find? (fun m => m.id = id) = some n →
      n.isRead = true) :
    (runNotifOps ops).unreadCount = countUnread (runNotifOps ops).notifications ∧
    0 ≤ (runNotifOps ops).unreadCount ∧
    markAsRead id st = st := by
  have hinit : NotifInv 0 initialNotifState := by
    refine ⟨rfl, List.nodup_nil, ?_⟩
    intro n hn
    exact absurd hn (List.not_mem_nil n)
  have hinv : NotifInv (0 + ops.length) (runNotifOps ops) :=
    runNotifOpsFrom_inv ops 0 initialNotifState hinit
  refine ⟨hinv.1, ?_, ?_⟩
  · rw [hinv.1]
    exact countUnread_nonneg _
  · rw [markAsRead]
    cases hf : st.notifications.find? (fun m => m.id = id) with
    | none => rfl
    | some n =>
        dsimp only
        rw [if_pos (hnoop n hf)]

/-- Witness for C10: two adds and an unknown-id `markAsRead` from the
empty store; the no-op hypothesis holds because the empty store has no
notification with id "x". -/
theorem c10_unreadCount_invariant_witness :
    (runNotifOps
      [NotifOp.add { type := NotificationType.bigSpend, title := "Big Spend"
                     message := "m1", priority := some NotificationPriority.high } 600 0,
       NotifOp.markRead "zzz",
       NotifOp.add { type := NotificationType.salaryReceived, title := "Salary"
                     message := "m2", priority := none } 700 1]).unreadCount =
      countUnread (runNotifOps
        [NotifOp.add { type := NotificationType.bigSpend, title := "Big Spend"
                       message := "m1", priority := some NotificationPriority.high } 600 0,
         NotifOp.markRead "zzz",
         NotifOp.add { type := NotificationType.salaryReceived, title := "Salary"
                       message := "m2", priority := none } 700 1]).notifications ∧
    0 ≤ (runNotifOps
      [NotifOp.add { type := NotificationType.bigSpend, title := "Big Spend"
                     message := "m1", priority := some NotificationPriority.high } 600 0,
       NotifOp.markRead "zzz",
       NotifOp.add { type := NotificationType.salaryReceived, title := "Salary"
                     message := "m2", priority := none } 700 1]).unreadCount ∧
    markAsRead "x" initialNotifState = initialNotifState :=
  c10_unreadCount_invariant
    [NotifOp.add { type := NotificationType.bigSpend, title := "Big Spend"
                   message := "m1", priority := some NotificationPriority.high } 600 0,
     NotifOp.markRead "zzz",
     NotifOp.add { type := NotificationType.salaryReceived, title := "Salary"
                   message := "m2", priority := none } 700 1]
    initialNotifState "x" (fun _ h => Option.noConfusion h)

end DontGoBroke
